import Mathlib

/-!
Verification of the client-side API access layer of the Birhan-Energies
Brent-Oil-Analysis dashboard (src/frontend/src/services/api.js).

The JavaScript module is embedded shallowly: the process-wide `cache`
(a JS `Map` from string keys to `\x7bdata, timestamp\x7d` records) becomes an
association list threaded explicitly through each operation, `Date.now()`
becomes an explicit `now : Nat` argument (milliseconds), the network becomes
an oracle argument `net` holding the payload the transport would deliver on
a successful round-trip, and a promise that either resolves or rejects
becomes `Except NormalizedError`.  Payloads are polymorphic in `α` because
the cache logic never inspects them, with one exception: each cached call
site guards the hit with `if (cached) return cached;`, a JavaScript
truthiness test on the payload itself, so the fetchers take an explicit
`truthy : α → Bool` argument modelling ToBoolean on `α` (for a JSON number
payload this is `natTruthy`: `0` is falsy).
-/

namespace ApiService

/-- Query parameters: an insertion-ordered list of string key/value pairs,
mirroring a JavaScript object literal whose own-property order is the
insertion order (`JSON.stringify` serializes in that order). -/
abbrev Params := List (String × String)

/-- `JSON.stringify` on a flat string-valued object: serializes the pairs in
insertion order.  api.js calls this inside `getCacheKey`. -/
def jsonStringify (params : Params) : String :=
  "\x7b" ++ String.intercalate "," (params.map (fun kv => "\"" ++ kv.1 ++ "\":\"" ++ kv.2 ++ "\"")) ++ "\x7d"

/-- A cache record as stored by `setToCache`: `\x7bdata, timestamp\x7d` (api.js
lines 96-101). -/
structure CacheEntry (α : Type) where
  data : α
  timestamp : Nat
deriving DecidableEq, Repr

/-- The module-level `cache = new Map()` of api.js, as an association list
with unique keys. -/
abbrev Cache (α : Type) := List (String × CacheEntry α)

/-- `CACHE_DURATION = 5 * 60 * 1000` (api.js line 81): the 5-minute
time-to-live in milliseconds. -/
def CACHE_DURATION : Nat := 5 * 60 * 1000

/-- `Map.prototype.get`: the value stored under `k`, if any. -/
def mapGet (c : Cache α) (k : String) : Option (CacheEntry α) :=
  match c with
  | [] => none
  | (k0, e0) :: rest => if k0 = k then some e0 else mapGet rest k

/-- `Map.prototype.set`: insert or overwrite the binding of `k`. -/
def mapSet (c : Cache α) (k : String) (e : CacheEntry α) : Cache α :=
  match c with
  | [] => [(k, e)]
  | (k0, e0) :: rest => if k0 = k then (k, e) :: rest else (k0, e0) :: mapSet rest k e

/-- `Map.prototype.delete`: remove the binding of `k` (a no-op when absent). -/
def mapDelete (c : Cache α) (k : String) : Cache α :=
  match c with
  | [] => []
  | (k0, e0) :: rest => if k0 = k then rest else (k0, e0) :: mapDelete rest k

/-- `getCacheKey(url, params)` (api.js lines 83-86):
`url + ':' + (params ? JSON.stringify(params) : '')`.  A `none` argument
models the call sites that pass no `params` argument at all. -/
def getCacheKey (url : String) (params : Option Params) : String :=
  let paramString := match params with
    | some p => jsonStringify p
    | none => ""
  url ++ ":" ++ paramString

/-- `getFromCache(key)` (api.js lines 88-95): returns the cached data when
the entry is younger than `CACHE_DURATION`; otherwise deletes the entry and
returns `null`.  The function reads `Date.now()` internally, here the
explicit `now`; the possibly-mutated map is returned alongside the result. -/
def getFromCache (c : Cache α) (now : Nat) (key : String) : Option α × Cache α :=
  match mapGet c key with
  | some cached =>
    if now - cached.timestamp < CACHE_DURATION then (some cached.data, c)
    else (none, mapDelete c key)
  | none => (none, mapDelete c key)

/-- `setToCache(key, data)` (api.js lines 96-101): stores `data` under `key`
with the current timestamp. -/
def setToCache (c : Cache α) (key : String) (d : α) (now : Nat) : Cache α :=
  mapSet c key { data := d, timestamp := now }

/-- Outcome of one exported fetch function on the success path: the payload
handed to the caller, the cache map after the call, and whether the call
went to the network (`await api.get(...)`) or was served from the cache. -/
structure FetchResult (α : Type) where
  payload : α
  cache : Cache α
  networkCalled : Bool
deriving DecidableEq, Repr

/-- The fetch-with-cache body that api.js repeats verbatim in `healthCheck`,
`fetchPrices`, `fetchEvents`, `fetchChangePoints`, `fetchMetrics`,
`fetchSummaryMetrics` and `fetchSeasonality`: look the key up with
`getFromCache`, then `if (cached) return cached;` — a JavaScript truthiness
test on the returned payload (modelled by `truthy`), so both a `null` from
`getFromCache` and a present-but-falsy payload (`0`, `''`, `false`, `null`)
fall through to the network branch, which fetches `net` and stores it.
Each of those functions below unfolds to this definitionally. -/
def cachedGet (truthy : α → Bool) (key : String) (net : α) (now : Nat)
    (cache : Cache α) : FetchResult α :=
  match getFromCache cache now key with
  | (some cached, cache1) =>
    if truthy cached then { payload := cached, cache := cache1, networkCalled := false }
    else { payload := net, cache := setToCache cache1 key net now, networkCalled := true }
  | (none, cache1) => { payload := net, cache := setToCache cache1 key net now, networkCalled := true }

/-- `healthCheck()` (api.js lines 104-112): cached fetch of `/health`, no
params argument; the hit is guarded by the truthiness test
`if (cached) return cached;` on the payload (line 108). -/
def healthCheck (truthy : α → Bool) (net : α) (now : Nat) (cache : Cache α) : FetchResult α :=
  let cacheKey := getCacheKey "/health" none
  match getFromCache cache now cacheKey with
  | (some cached, cache1) =>
    if truthy cached then { payload := cached, cache := cache1, networkCalled := false }
    else { payload := net, cache := setToCache cache1 cacheKey net now, networkCalled := true }
  | (none, cache1) => { payload := net, cache := setToCache cache1 cacheKey net now, networkCalled := true }

/-- `fetchPrices(params = \x7b\x7d)` (api.js lines 114-122): cached fetch of
`/prices` keyed on the serialized params; the hit is guarded by the
truthiness test `if (cached) return cached;` on the payload (line 118). -/
def fetchPrices (truthy : α → Bool) (params : Params) (net : α) (now : Nat)
    (cache : Cache α) : FetchResult α :=
  let cacheKey := getCacheKey "/prices" (some params)
  match getFromCache cache now cacheKey with
  | (some cached, cache1) =>
    if truthy cached then { payload := cached, cache := cache1, networkCalled := false }
    else { payload := net, cache := setToCache cache1 cacheKey net now, networkCalled := true }
  | (none, cache1) => { payload := net, cache := setToCache cache1 cacheKey net now, networkCalled := true }

/-- `fetchEvents(params = \x7b\x7d)` (api.js lines 124-132): cached fetch of
`/events` keyed on the serialized params; the hit is guarded by the
truthiness test `if (cached) return cached;` on the payload (line 128). -/
def fetchEvents (truthy : α → Bool) (params : Params) (net : α) (now : Nat)
    (cache : Cache α) : FetchResult α :=
  let cacheKey := getCacheKey "/events" (some params)
  match getFromCache cache now cacheKey with
  | (some cached, cache1) =>
    if truthy cached then { payload := cached, cache := cache1, networkCalled := false }
    else { payload := net, cache := setToCache cache1 cacheKey net now, networkCalled := true }
  | (none, cache1) => { payload := net, cache := setToCache cache1 cacheKey net now, networkCalled := true }

/-- `fetchChangePoints()` (api.js lines 134-142): cached fetch of
`/change-points`, no params argument; the hit is guarded by the truthiness
test `if (cached) return cached;` on the payload (line 138). -/
def fetchChangePoints (truthy : α → Bool) (net : α) (now : Nat) (cache : Cache α) : FetchResult α :=
  let cacheKey := getCacheKey "/change-points" none
  match getFromCache cache now cacheKey with
  | (some cached, cache1) =>
    if truthy cached then { payload := cached, cache := cache1, networkCalled := false }
    else { payload := net, cache := setToCache cache1 cacheKey net now, networkCalled := true }
  | (none, cache1) => { payload := net, cache := setToCache cache1 cacheKey net now, networkCalled := true }

/-- `fetchMetrics()` (api.js lines 144-152): cached fetch of `/metrics`, no
params argument; the hit is guarded by the truthiness test
`if (cached) return cached;` on the payload (line 148). -/
def fetchMetrics (truthy : α → Bool) (net : α) (now : Nat) (cache : Cache α) : FetchResult α :=
  let cacheKey := getCacheKey "/metrics" none
  match getFromCache cache now cacheKey with
  | (some cached, cache1) =>
    if truthy cached then { payload := cached, cache := cache1, networkCalled := false }
    else { payload := net, cache := setToCache cache1 cacheKey net now, networkCalled := true }
  | (none, cache1) => { payload := net, cache := setToCache cache1 cacheKey net now, networkCalled := true }

/-- `fetchSummaryMetrics()` (api.js lines 154-162): body identical to
`fetchMetrics`, including the `/metrics` endpoint, the cache key and the
truthiness guard (line 158). -/
def fetchSummaryMetrics (truthy : α → Bool) (net : α) (now : Nat) (cache : Cache α) : FetchResult α :=
  let cacheKey := getCacheKey "/metrics" none
  match getFromCache cache now cacheKey with
  | (some cached, cache1) =>
    if truthy cached then { payload := cached, cache := cache1, networkCalled := false }
    else { payload := net, cache := setToCache cache1 cacheKey net now, networkCalled := true }
  | (none, cache1) => { payload := net, cache := setToCache cache1 cacheKey net now, networkCalled := true }

/-- `fetchSeasonality()` (api.js lines 169-177): cached fetch of
`/analysis/seasonality`, no params argument; the hit is guarded by the
truthiness test `if (cached) return cached;` on the payload (line 172). -/
def fetchSeasonality (truthy : α → Bool) (net : α) (now : Nat) (cache : Cache α) : FetchResult α :=
  let cacheKey := getCacheKey "/analysis/seasonality" none
  match getFromCache cache now cacheKey with
  | (some cached, cache1) =>
    if truthy cached then { payload := cached, cache := cache1, networkCalled := false }
    else { payload := net, cache := setToCache cache1 cacheKey net now, networkCalled := true }
  | (none, cache1) => { payload := net, cache := setToCache cache1 cacheKey net now, networkCalled := true }

/-- JavaScript ToBoolean on a JSON number payload modelled as `Nat`: `0` is
falsy, every other number truthy (`NaN` lies outside the `Nat` model). -/
def natTruthy (n : Nat) : Bool := n != 0

/-- `fetchEventImpact(eventName)` (api.js lines 164-167): issues
`api.get('/analysis/event-impact/' + encodeURIComponent(eventName))` and
returns the response directly.  The body never mentions the cache: no
lookup, no store, so the cache map passes through untouched and the network
is hit on every call. -/
def fetchEventImpact (eventName : String) (net : α) (cache : Cache α) : FetchResult α :=
  { payload := net, cache := cache, networkCalled := true }

/-- `fetchDashboardConfig()` (api.js lines 179-182): issues
`api.get('/config')` and returns the response directly.  Like
`fetchEventImpact` the body never mentions the cache. -/
def fetchDashboardConfig (net : α) (cache : Cache α) : FetchResult α :=
  { payload := net, cache := cache, networkCalled := true }

/-- `clearCache()` (api.js lines 200-202): `cache.clear()` — the map is
emptied unconditionally. -/
def clearCache (c : Cache α) : Cache α := []

/-- The `responseType` axios is asked to decode the body with: the instance
default is JSON; the export functions override it to `'blob'`. -/
inductive ResponseType where
  | json
  | blob
deriving DecidableEq, Repr

/-- Outcome of one export function: the blob handed to the caller, the
untouched cache, whether the network was hit, and the request descriptor
(`url` plus the `responseType` option passed to `api.get`). -/
structure ExportResult (α : Type) where
  payload : α
  cache : Cache α
  networkCalled : Bool
  url : String
  responseType : ResponseType
deriving DecidableEq, Repr

/-- `exportPrices(format = 'csv')` (api.js lines 185-190): issues
`api.get('/export/prices?format=' + format, \x7bresponseType: 'blob'\x7d)` and
returns the response.  The body never mentions the cache. -/
def exportPrices (format : String) (net : α) (cache : Cache α) : ExportResult α :=
  { payload := net, cache := cache, networkCalled := true,
    url := "/export/prices?format=" ++ format, responseType := ResponseType.blob }

/-- `exportEvents(format = 'json')` (api.js lines 192-197): issues
`api.get('/export/events?format=' + format, \x7bresponseType: 'blob'\x7d)` and
returns the response.  The body never mentions the cache. -/
def exportEvents (format : String) (net : α) (cache : Cache α) : ExportResult α :=
  { payload := net, cache := cache, networkCalled := true,
    url := "/export/events?format=" ++ format, responseType := ResponseType.blob }

/-- `timeout: 30000` from `axios.create` (api.js line 8): the client-side
deadline in milliseconds. -/
def apiTimeout : Nat := 30000

/-- The default headers passed to `axios.create` (api.js lines 9-12). -/
def defaultHeaders : List (String × String) :=
  [("Content-Type", "application/json"), ("Accept", "application/json")]

/-- JavaScript property assignment on the headers object
(`config.headers.X = v`): overwrite the key if present, append otherwise. -/
def headerSet (hs : List (String × String)) (k v : String) : List (String × String) :=
  match hs with
  | [] => [(k, v)]
  | (k0, v0) :: rest => if k0 = k then (k, v) :: rest else (k0, v0) :: headerSet rest k v

/-- Reading a header back from the headers object. -/
def headerGet (hs : List (String × String)) (k : String) : Option String :=
  match hs with
  | [] => none
  | (k0, v0) :: rest => if k0 = k then some v0 else headerGet rest k

/-- The request interceptor (api.js lines 16-27): reads
`localStorage.getItem('auth_token')` (here the explicit `token` argument,
`none` when no token is persisted), sets `Authorization: Bearer <token>`
only when a token is present, always sets `X-Request-Timestamp` (here the
explicit `timestamp` for `new Date().toISOString()`), and returns the
config's headers.  No branch throws: the request proceeds either way. -/
def onRequestFulfilled (token : Option String) (timestamp : String)
    (headers : List (String × String)) : List (String × String) :=
  let headers1 := match token with
    | some t => headerSet headers "Authorization" ("Bearer " ++ t)
    | none => headers
  headerSet headers1 "X-Request-Timestamp" timestamp

/-- A JSON body observed on an error response, as far as the interceptor
inspects it: `error.response?.data?.message`. -/
structure ErrBody where
  message : Option String
deriving DecidableEq, Repr

/-- `error.response` when the server answered: the HTTP status and the
parsed body, if any. -/
structure ErrResponse where
  status : Nat
  data : Option ErrBody
deriving DecidableEq, Repr

/-- The axios error object reaching the response error interceptor:
`error.message` (axios always fills this with a non-empty description such
as `Request failed with status code 404`, `timeout of 30000ms exceeded` or
`Network Error`), `error.code` (`'ECONNABORTED'` on a client-side timeout,
`'ERR_NETWORK'` when no connection could be made), and `error.response`
(`undefined` exactly when no response was received). -/
structure AxiosError where
  message : String
  code : Option String
  response : Option ErrResponse
deriving DecidableEq, Repr

/-- The structured error object the interceptor rejects with (api.js lines
67-73): `\x7bsuccess: false, message: error.response?.data?.message ||
error.message, status: error.response?.status, data:
error.response?.data\x7d`.  The `||` falls through on a missing or empty
server message. -/
structure NormalizedError where
  success : Bool
  message : String
  status : Option Nat
  data : Option ErrBody
deriving DecidableEq, Repr

/-- Builds the rejected error object of api.js lines 67-73. -/
def normalizeError (e : AxiosError) : NormalizedError :=
  { success := false
  , message :=
      match (e.response.bind fun r => r.data).bind fun b => b.message with
      | some m => if m = "" then e.message else m
      | none => e.message
  , status := e.response.map fun r => r.status
  , data := e.response.bind fun r => r.data }

/-- The diagnostic branches of the error interceptor (api.js lines 40-65):
with a response, the `switch` on `response.status` logs one of the five
labelled diagnostics or the default `API error` line; with no response, an
`ECONNABORTED` code logs the timeout diagnostic and an `ERR_NETWORK` code
the network diagnostic.  Constructor names follow the error taxonomy the
branches realise; `unknown` is the default `switch` branch. -/
inductive ErrorCategory where
  | unauthorized
  | forbidden
  | notFound
  | serverError
  | serviceUnavailable
  | unknown
  | timeout
  | networkUnreachable
deriving DecidableEq, Repr

/-- Which diagnostic branch of api.js lines 40-65 runs for a given error
(`none` when no response arrived and the code matches neither known one, in
which case nothing is logged). -/
def logCategory (e : AxiosError) : Option ErrorCategory :=
  match e.response with
  | some r =>
    some (if r.status = 401 then ErrorCategory.unauthorized
      else if r.status = 403 then ErrorCategory.forbidden
      else if r.status = 404 then ErrorCategory.notFound
      else if r.status = 500 then ErrorCategory.serverError
      else if r.status = 503 then ErrorCategory.serviceUnavailable
      else ErrorCategory.unknown)
  | none =>
    if e.code = some "ECONNABORTED" then some ErrorCategory.timeout
    else if e.code = some "ERR_NETWORK" then some ErrorCategory.networkUnreachable
    else none

/-- The raw HTTP response the fulfilled response interceptor receives. -/
structure AxiosResponse (α : Type) where
  status : Nat
  data : α
deriving DecidableEq, Repr

/-- The fulfilled response interceptor (api.js lines 35-37):
`(response) => response.data` — it unconditionally resolves with the parsed
body, whatever that body contains. -/
def onResponseFulfilled (r : AxiosResponse α) : Except NormalizedError α :=
  Except.ok r.data

/-- The rejected response interceptor (api.js lines 39-75): logs a
diagnostic (see `logCategory`) and rejects with the normalized error. -/
def onResponseRejected (e : AxiosError) : Except NormalizedError α :=
  Except.error (normalizeError e)

/-- A response body as the backend contract shapes it:
`\x7bsuccess: bool, ...\x7d`.  Used to state claims about how the layer treats
the `success` flag; a `payload` component stands for the rest of the body. -/
structure ApiBody where
  success : Bool
  message : Option String
  payload : Nat
deriving DecidableEq, Repr

/-- One settled promise, as `Promise.allSettled` reports it: either a
fulfillment value or a rejection reason. -/
inductive PromiseResult (ε α : Type) where
  | fulfilled (v : α)
  | rejected (r : ε)
deriving DecidableEq, Repr

/-- One element of the array `batchRequests` resolves with (api.js lines
205-213): the original request, the settlement status string, `data`
holding the value when fulfilled and the reason when rejected, and `error`
holding the reason when rejected and `null` otherwise. -/
structure BatchEntry (ε α : Type) where
  request : PromiseResult ε α
  status : String
  data : ε ⊕ α
  error : Option ε
deriving DecidableEq, Repr

/-- `batchRequests(requests)` (api.js lines 205-213):
`Promise.allSettled(requests)` followed by the index-aligned `map`.  The
input is the list of the promises' settled outcomes (`allSettled` never
rejects and preserves order), and `requests[index]` is the corresponding
input element. -/
def batchRequests (requests : List (PromiseResult ε α)) : List (BatchEntry ε α) :=
  requests.map fun result =>
    { request := result
    , status := match result with
        | PromiseResult.fulfilled _ => "fulfilled"
        | PromiseResult.rejected _ => "rejected"
    , data := match result with
        | PromiseResult.fulfilled v => Sum.inr v
        | PromiseResult.rejected r => Sum.inl r
    , error := match result with
        | PromiseResult.fulfilled _ => none
        | PromiseResult.rejected r => some r }

/-! ### Cache lemmas shared by the theorems below -/

theorem getCacheKey_some (url : String) (p : Params) :
    getCacheKey url (some p) = url ++ ":" ++ jsonStringify p := rfl

theorem mapGet_mapSet_self (c : Cache α) (k : String) (e : CacheEntry α) :
    mapGet (mapSet c k e) k = some e := by
  induction c with
  | nil => simp [mapGet, mapSet]
  | cons kv rest ih =>
    by_cases h : kv.1 = k <;> simp [mapGet, mapSet, h, ih]

theorem cachedGet_hit (truthy : α → Bool) (key : String) (net : α) (now : Nat) (c : Cache α)
    (e : CacheEntry α) (he : mapGet c key = some e)
    (hf : now - e.timestamp < CACHE_DURATION) (ht : truthy e.data = true) :
    cachedGet truthy key net now c
      = { payload := e.data, cache := c, networkCalled := false } := by
  simp [cachedGet, getFromCache, he, hf, ht]

theorem cachedGet_falsy (truthy : α → Bool) (key : String) (net : α) (now : Nat) (c : Cache α)
    (e : CacheEntry α) (he : mapGet c key = some e)
    (hf : now - e.timestamp < CACHE_DURATION) (ht : truthy e.data = false) :
    cachedGet truthy key net now c
      = { payload := net, cache := setToCache c key net now, networkCalled := true } := by
  simp [cachedGet, getFromCache, he, hf, ht]

theorem cachedGet_entry (truthy : α → Bool) (key : String) (net : α) (now : Nat) (c : Cache α)
    (e : CacheEntry α)
    (he : mapGet (cachedGet truthy key net now c).cache key = some e) :
    e.data = (cachedGet truthy key net now c).payload := by
  rcases h : mapGet c key with _ | e0
  · simp only [cachedGet, getFromCache, h] at he ⊢
    rw [setToCache, mapGet_mapSet_self] at he
    cases he
    rfl
  · by_cases hf : now - e0.timestamp < CACHE_DURATION
    · by_cases ht : truthy e0.data = true
      · simp only [cachedGet, getFromCache, h, hf, ht, if_pos] at he ⊢
        cases Option.some.inj he
        rfl
      · rw [Bool.not_eq_true] at ht
        simp only [cachedGet, getFromCache, h, hf, ht, if_pos, Bool.false_eq_true,
          if_neg, not_false_iff] at he ⊢
        rw [setToCache, mapGet_mapSet_self] at he
        cases he
        rfl
    · simp only [cachedGet, getFromCache, h, hf, if_neg, not_false_iff] at he ⊢
      rw [setToCache, mapGet_mapSet_self] at he
      cases he
      rfl

theorem cachedGet_second_call (truthy : α → Bool) (key : String) (net1 net2 : α)
    (now1 now2 : Nat) (c : Cache α) (e : CacheEntry α)
    (he : mapGet (cachedGet truthy key net1 now1 c).cache key = some e)
    (hf : now2 - e.timestamp < CACHE_DURATION) (ht : truthy e.data = true) :
    (cachedGet truthy key net2 now2 (cachedGet truthy key net1 now1 c).cache).payload
        = (cachedGet truthy key net1 now1 c).payload
      ∧ (cachedGet truthy key net2 now2 (cachedGet truthy key net1 now1 c).cache).networkCalled
        = false := by
  have hdata := cachedGet_entry truthy key net1 now1 c e he
  rw [cachedGet_hit truthy key net2 now2 _ e he hf ht]
  exact ⟨hdata, rfl⟩

theorem cachedGet_second_call_falsy (truthy : α → Bool) (key : String) (net1 net2 : α)
    (now1 now2 : Nat) (c : Cache α) (e : CacheEntry α)
    (he : mapGet (cachedGet truthy key net1 now1 c).cache key = some e)
    (hf : now2 - e.timestamp < CACHE_DURATION) (ht : truthy e.data = false) :
    (cachedGet truthy key net2 now2 (cachedGet truthy key net1 now1 c).cache).networkCalled
      = true := by
  rw [cachedGet_falsy truthy key net2 now2 _ e he hf ht]

/-! ### Claim theorems -/

/-- C3, counterexample: the cache keys computed for the same parameter pairs
in the two insertion orders differ, because `getCacheKey` serializes with
insertion-ordered `JSON.stringify`. -/
theorem c3_counterexample :
    getCacheKey "/events" (some [("a", "1"), ("b", "2")])
      ≠ getCacheKey "/events" (some [("b", "2"), ("a", "1")]) := by
  decide

/-- C3, amended: cache key generation is order-dependent, not
order-independent — for a fixed endpoint, two parameter mappings receive
the same cache key exactly when their insertion-ordered JSON serializations
coincide, so the same key-value pairs in different insertion orders may
produce different keys. -/
theorem c3_cache_key_order_amended (url : String) (p1 p2 : Params) :
    getCacheKey url (some p1) = getCacheKey url (some p2)
      ↔ jsonStringify p1 = jsonStringify p2 := by
  constructor
  · intro h
    rw [getCacheKey_some, getCacheKey_some] at h
    have h2 := congrArg String.data h
    rw [String.data_append, String.data_append] at h2
    exact String.ext (List.append_cancel_left h2)
  · intro h
    rw [getCacheKey_some, getCacheKey_some, h]

/-- C5: `clearCache` deletes every cache entry unconditionally (no key
survives), and the first `fetchPrices` call after `clearCache` always
performs a network call, for every previously cached key and every
payload-truthiness function. -/
theorem c5_clear_cache_forces_network :
    (∀ (α : Type) (c : Cache α) (k : String), mapGet (clearCache c) k = none)
    ∧ ∀ (α : Type) (truthy : α → Bool) (params : Params) (net : α) (now : Nat) (c : Cache α),
        (fetchPrices truthy params net now (clearCache c)).networkCalled = true :=
  ⟨fun _ _ _ => rfl, fun _ _ _ _ _ _ => rfl⟩

/-- C7: the export functions bypass the cache entirely — they leave the
cache map unchanged, their payload does not depend on the cache contents
(no read), they always hit the network, and they request a blob response
body rather than JSON. -/
theorem c7_export_bypasses_cache :
    ∀ (α : Type) (format : String) (net : α) (c c2 : Cache α),
      (exportPrices format net c).cache = c
      ∧ (exportPrices format net c).networkCalled = true
      ∧ (exportPrices format net c).responseType = ResponseType.blob
      ∧ (exportPrices format net c).payload = (exportPrices format net c2).payload
      ∧ (exportEvents format net c).cache = c
      ∧ (exportEvents format net c).networkCalled = true
      ∧ (exportEvents format net c).responseType = ResponseType.blob
      ∧ (exportEvents format net c).payload = (exportEvents format net c2).payload :=
  fun _ _ _ _ _ => ⟨rfl, rfl, rfl, rfl, rfl, rfl, rfl, rfl⟩

/-- C8: every outgoing request keeps the fixed JSON content-type header;
with a persisted token the interceptor adds `Authorization: Bearer <token>`,
and with no token the request still goes out (the interceptor returns
headers, it never fails) with no authorization header. -/
theorem c8_request_headers :
    (∀ (t timestamp : String),
      headerGet (onRequestFulfilled (some t) timestamp defaultHeaders) "Content-Type"
          = some "application/json"
        ∧ headerGet (onRequestFulfilled (some t) timestamp defaultHeaders) "Authorization"
          = some ("Bearer " ++ t))
    ∧ ∀ (timestamp : String),
      headerGet (onRequestFulfilled none timestamp defaultHeaders) "Content-Type"
          = some "application/json"
        ∧ headerGet (onRequestFulfilled none timestamp defaultHeaders) "Authorization"
          = none :=
  ⟨fun _ _ => ⟨rfl, rfl⟩, fun _ => ⟨rfl, rfl⟩⟩

/-- C1, counterexample: `fetchDashboardConfig` never touches the cache, so a
second `/config` call issued one millisecond after a successful first call
(no `clearCache` in between, well inside the 5-minute time-to-live) still
performs a network request and returns the fresh network payload `6` rather
than the first call's payload `5`. -/
theorem c1_counterexample :
    (fetchDashboardConfig 6 ((fetchDashboardConfig 5 ([] : Cache Nat)).cache)).networkCalled = true
    ∧ (fetchDashboardConfig 6 ((fetchDashboardConfig 5 ([] : Cache Nat)).cache)).payload
        ≠ (fetchDashboardConfig 5 ([] : Cache Nat)).payload := by
  exact ⟨rfl, by decide⟩

/-- C1, amended: the cache-hit invariant holds for every fetch function that
uses the cache (`fetchPrices`, `fetchEvents`, `healthCheck`,
`fetchChangePoints`, `fetchMetrics`, `fetchSummaryMetrics`,
`fetchSeasonality`) whenever the entry stored under the call's cache key is
younger than the 5-minute time-to-live at the time of the second call AND
its payload is truthy in the JavaScript sense: then the second call returns
the first call's payload and performs no network request.  A falsy cached
payload (`0`, `''`, `false`, `null`) fails the call-site guard
`if (cached) return cached;` and is re-fetched over the network (shown for
`fetchPrices`), and `fetchDashboardConfig` and `fetchEventImpact` bypass
the cache and perform a network request on every call. -/
theorem c1_cache_invariant_amended :
    (∀ (α : Type) (truthy : α → Bool) (params : Params) (net1 net2 : α) (now1 now2 : Nat)
        (c : Cache α) (e : CacheEntry α),
      mapGet (fetchPrices truthy params net1 now1 c).cache
          (getCacheKey "/prices" (some params)) = some e →
      now2 - e.timestamp < CACHE_DURATION →
      truthy e.data = true →
      (fetchPrices truthy params net2 now2 (fetchPrices truthy params net1 now1 c).cache).payload
          = (fetchPrices truthy params net1 now1 c).payload
        ∧ (fetchPrices truthy params net2 now2
            (fetchPrices truthy params net1 now1 c).cache).networkCalled = false)
    ∧ (∀ (α : Type) (truthy : α → Bool) (params : Params) (net1 net2 : α) (now1 now2 : Nat)
        (c : Cache α) (e : CacheEntry α),
      mapGet (fetchEvents truthy params net1 now1 c).cache
          (getCacheKey "/events" (some params)) = some e →
      now2 - e.timestamp < CACHE_DURATION →
      truthy e.data = true →
      (fetchEvents truthy params net2 now2 (fetchEvents truthy params net1 now1 c).cache).payload
          = (fetchEvents truthy params net1 now1 c).payload
        ∧ (fetchEvents truthy params net2 now2
            (fetchEvents truthy params net1 now1 c).cache).networkCalled = false)
    ∧ (∀ (α : Type) (truthy : α → Bool) (net1 net2 : α) (now1 now2 : Nat) (c : Cache α)
        (e : CacheEntry α),
      mapGet (healthCheck truthy net1 now1 c).cache (getCacheKey "/health" none) = some e →
      now2 - e.timestamp < CACHE_DURATION →
      truthy e.data = true →
      (healthCheck truthy net2 now2 (healthCheck truthy net1 now1 c).cache).payload
          = (healthCheck truthy net1 now1 c).payload
        ∧ (healthCheck truthy net2 now2
            (healthCheck truthy net1 now1 c).cache).networkCalled = false)
    ∧ (∀ (α : Type) (truthy : α → Bool) (net1 net2 : α) (now1 now2 : Nat) (c : Cache α)
        (e : CacheEntry α),
      mapGet (fetchChangePoints truthy net1 now1 c).cache
          (getCacheKey "/change-points" none) = some e →
      now2 - e.timestamp < CACHE_DURATION →
      truthy e.data = true →
      (fetchChangePoints truthy net2 now2 (fetchChangePoints truthy net1 now1 c).cache).payload
          = (fetchChangePoints truthy net1 now1 c).payload
        ∧ (fetchChangePoints truthy net2 now2
            (fetchChangePoints truthy net1 now1 c).cache).networkCalled = false)
    ∧ (∀ (α : Type) (truthy : α → Bool) (net1 net2 : α) (now1 now2 : Nat) (c : Cache α)
        (e : CacheEntry α),
      mapGet (fetchMetrics truthy net1 now1 c).cache (getCacheKey "/metrics" none) = some e →
      now2 - e.timestamp < CACHE_DURATION →
      truthy e.data = true →
      (fetchMetrics truthy net2 now2 (fetchMetrics truthy net1 now1 c).cache).payload
          = (fetchMetrics truthy net1 now1 c).payload
        ∧ (fetchMetrics truthy net2 now2
            (fetchMetrics truthy net1 now1 c).cache).networkCalled = false)
    ∧ (∀ (α : Type) (truthy : α → Bool) (net1 net2 : α) (now1 now2 : Nat) (c : Cache α)
        (e : CacheEntry α),
      mapGet (fetchSummaryMetrics truthy net1 now1 c).cache
          (getCacheKey "/metrics" none) = some e →
      now2 - e.timestamp < CACHE_DURATION →
      truthy e.data = true →
      (fetchSummaryMetrics truthy net2 now2
            (fetchSummaryMetrics truthy net1 now1 c).cache).payload
          = (fetchSummaryMetrics truthy net1 now1 c).payload
        ∧ (fetchSummaryMetrics truthy net2 now2
            (fetchSummaryMetrics truthy net1 now1 c).cache).networkCalled = false)
    ∧ (∀ (α : Type) (truthy : α → Bool) (net1 net2 : α) (now1 now2 : Nat) (c : Cache α)
        (e : CacheEntry α),
      mapGet (fetchSeasonality truthy net1 now1 c).cache
          (getCacheKey "/analysis/seasonality" none) = some e →
      now2 - e.timestamp < CACHE_DURATION →
      truthy e.data = true →
      (fetchSeasonality truthy net2 now2 (fetchSeasonality truthy net1 now1 c).cache).payload
          = (fetchSeasonality truthy net1 now1 c).payload
        ∧ (fetchSeasonality truthy net2 now2
            (fetchSeasonality truthy net1 now1 c).cache).networkCalled = false)
    ∧ (∀ (α : Type) (truthy : α → Bool) (params : Params) (net1 net2 : α) (now1 now2 : Nat)
        (c : Cache α) (e : CacheEntry α),
      mapGet (fetchPrices truthy params net1 now1 c).cache
          (getCacheKey "/prices" (some params)) = some e →
      now2 - e.timestamp < CACHE_DURATION →
      truthy e.data = false →
      (fetchPrices truthy params net2 now2
          (fetchPrices truthy params net1 now1 c).cache).networkCalled = true)
    ∧ (∀ (α : Type) (net : α) (c : Cache α), (fetchDashboardConfig net c).networkCalled = true)
    ∧ (∀ (α : Type) (s : String) (net : α) (c : Cache α),
        (fetchEventImpact s net c).networkCalled = true) :=
  ⟨fun _ truthy params net1 net2 now1 now2 c e he hf ht =>
      cachedGet_second_call truthy (getCacheKey "/prices" (some params))
        net1 net2 now1 now2 c e he hf ht,
   fun _ truthy params net1 net2 now1 now2 c e he hf ht =>
      cachedGet_second_call truthy (getCacheKey "/events" (some params))
        net1 net2 now1 now2 c e he hf ht,
   fun _ truthy net1 net2 now1 now2 c e he hf ht =>
      cachedGet_second_call truthy (getCacheKey "/health" none) net1 net2 now1 now2 c e he hf ht,
   fun _ truthy net1 net2 now1 now2 c e he hf ht =>
      cachedGet_second_call truthy (getCacheKey "/change-points" none)
        net1 net2 now1 now2 c e he hf ht,
   fun _ truthy net1 net2 now1 now2 c e he hf ht =>
      cachedGet_second_call truthy (getCacheKey "/metrics" none) net1 net2 now1 now2 c e he hf ht,
   fun _ truthy net1 net2 now1 now2 c e he hf ht =>
      cachedGet_second_call truthy (getCacheKey "/metrics" none) net1 net2 now1 now2 c e he hf ht,
   fun _ truthy net1 net2 now1 now2 c e he hf ht =>
      cachedGet_second_call truthy (getCacheKey "/analysis/seasonality" none)
        net1 net2 now1 now2 c e he hf ht,
   fun _ truthy params net1 net2 now1 now2 c e he hf ht =>
      cachedGet_second_call_falsy truthy (getCacheKey "/prices" (some params))
        net1 net2 now1 now2 c e he hf ht,
   fun _ _ _ => rfl,
   fun _ _ _ _ => rfl⟩

/-- C1, witness: two `fetchPrices` calls one millisecond apart on an
initially empty cache, with the truthy payload `5` — the second is served
the first call's payload with no network request. -/
theorem c1_witness :
    (fetchPrices natTruthy [("a", "1")] 6 1
        (fetchPrices natTruthy [("a", "1")] 5 0 []).cache).payload
        = (fetchPrices natTruthy [("a", "1")] 5 0 []).payload
      ∧ (fetchPrices natTruthy [("a", "1")] 6 1
          (fetchPrices natTruthy [("a", "1")] 5 0 []).cache).networkCalled = false :=
  c1_cache_invariant_amended.1 Nat natTruthy [("a", "1")] 5 6 0 1 []
    { data := 5, timestamp := 0 } (by decide) (by decide) (by decide)

/-- C2, counterexample: the fulfilled response interceptor resolves a
status-200 response whose body carries `success: false` with that very
body — it does not reject. -/
theorem c2_counterexample :
    onResponseFulfilled
        ({ status := 200, data := { success := false, message := some "backend refused", payload := 0 } }
          : AxiosResponse ApiBody)
        = Except.ok { success := false, message := some "backend refused", payload := 0 }
      ∧ ({ success := false, message := some "backend refused", payload := 0 } : ApiBody).success
        = false :=
  ⟨rfl, rfl⟩

/-- C2, amended: for every response in the 2xx range the access layer
resolves with the parsed body unchanged even when the body's `success` flag
is `false`; detecting `success: false` is left to the callers. -/
theorem c2_success_false_resolves_amended :
    ∀ (b : ApiBody) (st : Nat), b.success = false → 200 ≤ st → st ≤ 299 →
      onResponseFulfilled ({ status := st, data := b } : AxiosResponse ApiBody) = Except.ok b :=
  fun _ _ _ _ _ => rfl

/-- C2, amended witness: a 204 response with a `success: false` body
resolves with that body. -/
theorem c2_witness :
    onResponseFulfilled
        ({ status := 204, data := { success := false, message := none, payload := 7 } }
          : AxiosResponse ApiBody)
        = Except.ok { success := false, message := none, payload := 7 } :=
  c2_success_false_resolves_amended { success := false, message := none, payload := 7 } 204
    rfl (by decide) (by decide)

/-- C4: every failing request is rejected with the single normalized shape:
`success` is `false`, `message` is non-empty whenever the axios-supplied
`error.message` is (axios always fills it), `status` is the numeric HTTP
status exactly when a response was received and absent otherwise, and the
error interceptor always rejects — it never resolves with a payload. -/
theorem c4_normalized_error_shape :
    ∀ (e : AxiosError), e.message ≠ "" →
      (normalizeError e).success = false
      ∧ (normalizeError e).message ≠ ""
      ∧ (∀ r : ErrResponse, e.response = some r → (normalizeError e).status = some r.status)
      ∧ (e.response = none → (normalizeError e).status = none)
      ∧ (onResponseRejected e : Except NormalizedError Unit) = Except.error (normalizeError e) := by
  intro e hmsg
  refine ⟨rfl, ?_, ?_, ?_, rfl⟩
  · show (match (e.response.bind fun r => r.data).bind fun b => b.message with
      | some m => if m = "" then e.message else m
      | none => e.message) ≠ ""
    split
    · next m _ => by_cases hm2 : m = "" <;> simp [hm2, hmsg]
    · exact hmsg
  · intro r hr
    show (e.response.map fun r => r.status) = some r.status
    rw [hr]
    rfl
  · intro hr
    show (e.response.map fun r => r.status) = none
    rw [hr]
    rfl

/-- C4, witness: the concrete 404 scenario — the caller receives
`success: false`, `status: 404` and a non-empty message. -/
theorem c4_witness :
    (normalizeError
        { message := "Request failed with status code 404", code := none,
          response := some { status := 404, data := some { message := none } } }).success = false
    ∧ (normalizeError
        { message := "Request failed with status code 404", code := none,
          response := some { status := 404, data := some { message := none } } }).message ≠ ""
    ∧ (normalizeError
        { message := "Request failed with status code 404", code := none,
          response := some { status := 404, data := some { message := none } } }).status
      = some 404 := by
  have h := c4_normalized_error_shape
    { message := "Request failed with status code 404", code := none,
      response := some { status := 404, data := some { message := none } } } (by decide)
  exact ⟨h.1, h.2.1, h.2.2.1 { status := 404, data := some { message := none } } rfl⟩

/-- C6: the client-side deadline is 30000 milliseconds, and an error whose
deadline expired (axios: no response, code `ECONNABORTED`) runs the timeout
diagnostic branch — never the default `unknown` branch — while the caller
receives the same normalized shape as for any failure, observed through its
`message` and `status` fields (`status` absent, `message` the axios
timeout message). -/
theorem c6_timeout_category :
    apiTimeout = 30000
    ∧ ∀ (e : AxiosError), e.response = none → e.code = some "ECONNABORTED" →
        logCategory e = some ErrorCategory.timeout
        ∧ logCategory e ≠ some ErrorCategory.unknown
        ∧ (onResponseRejected e : Except NormalizedError Unit) = Except.error (normalizeError e)
        ∧ (normalizeError e).success = false
        ∧ (normalizeError e).message = e.message
        ∧ (normalizeError e).status = none := by
  refine ⟨rfl, fun e hr hc => ?_⟩
  have hlog : logCategory e = some ErrorCategory.timeout := by
    simp [logCategory, hr, hc]
  refine ⟨hlog, by simp [hlog], rfl, rfl, ?_, ?_⟩
  · show (match (e.response.bind fun r => r.data).bind fun b => b.message with
      | some m => if m = "" then e.message else m
      | none => e.message) = e.message
    rw [hr]
    rfl
  · show (e.response.map fun r => r.status) = none
    rw [hr]
    rfl

/-- C6, witness: the canonical axios timeout error is categorized as
`timeout`, not `unknown`, and carries no status. -/
theorem c6_witness :
    logCategory
        { message := "timeout of 30000ms exceeded", code := some "ECONNABORTED",
          response := none } = some ErrorCategory.timeout
    ∧ logCategory
        { message := "timeout of 30000ms exceeded", code := some "ECONNABORTED",
          response := none } ≠ some ErrorCategory.unknown
    ∧ (normalizeError
        { message := "timeout of 30000ms exceeded", code := some "ECONNABORTED",
          response := none }).status = none := by
  have h := c6_timeout_category.2
    { message := "timeout of 30000ms exceeded", code := some "ECONNABORTED", response := none }
    rfl rfl
  exact ⟨h.1, h.2.1, h.2.2.2.2.2⟩

/-- C9, counterexample: after `fetchMetrics` stores the falsy payload `0`
for `/metrics` at time `0`, `fetchSummaryMetrics` one millisecond later is
NOT served from that entry: the call-site guard `if (cached) return
cached;` fails on the falsy payload, the network is hit again and the fresh
payload `6` is returned instead of the cached `0`. -/
theorem c9_counterexample :
    (fetchSummaryMetrics natTruthy 6 1
        (fetchMetrics natTruthy (0 : Nat) 0 []).cache).networkCalled = true
    ∧ (fetchSummaryMetrics natTruthy 6 1
        (fetchMetrics natTruthy (0 : Nat) 0 []).cache).payload
      ≠ (fetchMetrics natTruthy (0 : Nat) 0 []).payload := by
  decide

/-- C9, amended: `fetchMetrics` and `fetchSummaryMetrics` are extensionally
equal — they agree on every truthiness function, network payload, time and
cache — and a call to one populates the `/metrics` cache entry the other is
served from within the time-to-live provided the cached payload is truthy
in the JavaScript sense (shown with `fetchMetrics` first; by the equality
the symmetric order follows); with a falsy cached payload the other call
hits the network again instead. -/
theorem c9_metrics_equivalence_amended :
    (∀ (α : Type) (truthy : α → Bool) (net : α) (now : Nat) (c : Cache α),
        fetchMetrics truthy net now c = fetchSummaryMetrics truthy net now c)
    ∧ (∀ (α : Type) (truthy : α → Bool) (net1 net2 : α) (now1 now2 : Nat) (c : Cache α)
        (e : CacheEntry α),
        mapGet (fetchMetrics truthy net1 now1 c).cache (getCacheKey "/metrics" none) = some e →
        now2 - e.timestamp < CACHE_DURATION →
        truthy e.data = true →
        (fetchSummaryMetrics truthy net2 now2 (fetchMetrics truthy net1 now1 c).cache).payload
            = (fetchMetrics truthy net1 now1 c).payload
          ∧ (fetchSummaryMetrics truthy net2 now2
              (fetchMetrics truthy net1 now1 c).cache).networkCalled = false)
    ∧ ∀ (α : Type) (truthy : α → Bool) (net1 net2 : α) (now1 now2 : Nat) (c : Cache α)
        (e : CacheEntry α),
        mapGet (fetchMetrics truthy net1 now1 c).cache (getCacheKey "/metrics" none) = some e →
        now2 - e.timestamp < CACHE_DURATION →
        truthy e.data = false →
        (fetchSummaryMetrics truthy net2 now2
            (fetchMetrics truthy net1 now1 c).cache).networkCalled = true :=
  ⟨fun _ _ _ _ _ => rfl,
   fun _ truthy net1 net2 now1 now2 c e he hf ht =>
     cachedGet_second_call truthy (getCacheKey "/metrics" none) net1 net2 now1 now2 c e he hf ht,
   fun _ truthy net1 net2 now1 now2 c e he hf ht =>
     cachedGet_second_call_falsy truthy (getCacheKey "/metrics" none)
       net1 net2 now1 now2 c e he hf ht⟩

/-- C9, witness: after `fetchMetrics` stores the truthy payload `5` at time
`0`, `fetchSummaryMetrics` at time `1` is served that payload from the
cache. -/
theorem c9_witness :
    (fetchSummaryMetrics natTruthy 6 1 (fetchMetrics natTruthy (5 : Nat) 0 []).cache).payload
        = (fetchMetrics natTruthy (5 : Nat) 0 []).payload
      ∧ (fetchSummaryMetrics natTruthy 6 1
          (fetchMetrics natTruthy (5 : Nat) 0 []).cache).networkCalled = false :=
  c9_metrics_equivalence_amended.2.1 Nat natTruthy 5 6 0 1 []
    { data := 5, timestamp := 0 } (by decide) (by decide) (by decide)

/-- C10: `batchRequests` never rejects — it is a total map over the settled
outcomes — and resolves with a list of the input's length, in input order,
where a fulfilled input at position `i` yields status `fulfilled` with
`data` the fulfillment value and `error` null, and a rejected input at
position `j` yields status `rejected` with both `data` and `error` the
rejection reason. -/
theorem c10_batch_requests :
    ∀ (ε α : Type) (rs : List (PromiseResult ε α)) (i j : Nat) (v : α) (r : ε),
      (batchRequests rs).length = rs.length
      ∧ (rs.get? i = some (PromiseResult.fulfilled v) →
          (batchRequests rs).get? i
            = some { request := PromiseResult.fulfilled v, status := "fulfilled",
                     data := Sum.inr v, error := none })
      ∧ (rs.get? j = some (PromiseResult.rejected r) →
          (batchRequests rs).get? j
            = some { request := PromiseResult.rejected r, status := "rejected",
                     data := Sum.inl r, error := some r }) := by
  intro ε α rs i j v r
  refine ⟨by simp [batchRequests], fun h => ?_, fun h => ?_⟩
  · rw [batchRequests, List.get?_map, h]
    rfl
  · rw [batchRequests, List.get?_map, h]
    rfl

/-- C10, witness: a two-element batch with one fulfilled and one rejected
promise maps to the expected two entries. -/
theorem c10_witness :
    (batchRequests ([PromiseResult.fulfilled 3, PromiseResult.rejected 7]
        : List (PromiseResult Nat Nat))).length = 2
    ∧ (batchRequests ([PromiseResult.fulfilled 3, PromiseResult.rejected 7]
        : List (PromiseResult Nat Nat))).get? 0
      = some { request := PromiseResult.fulfilled 3, status := "fulfilled",
               data := Sum.inr 3, error := none }
    ∧ (batchRequests ([PromiseResult.fulfilled 3, PromiseResult.rejected 7]
        : List (PromiseResult Nat Nat))).get? 1
      = some { request := PromiseResult.rejected 7, status := "rejected",
               data := Sum.inl 7, error := some 7 } := by
  have h := c10_batch_requests Nat Nat
    [PromiseResult.fulfilled 3, PromiseResult.rejected 7] 0 1 3 7
  exact ⟨h.1, h.2.1 rfl, h.2.2 rfl⟩

end ApiService
